import Mathlib

set_option maxHeartbeats 1000000

/-!
Verification development for the pdf-craft OCR backend core: the Remote API
page extractor (`pdf_craft/pdf/api_extractor.py`) and the interruption
classifier (`pdf_craft/error.py`), over a shallow embedding.

Python text values may contain lone surrogate code points, which Lean `Char`
cannot represent, so recognized text is embedded as a list of Unicode code
points (`PyStr`). Exceptions are embedded as the inductive `PyExc`; raising
code returns `Except PyExc`.
-/

/-- Python strings as sequences of Unicode code points (lone surrogates allowed). -/
abbrev PyStr := List Nat

/-- Subtype tag of a `doc_page_extractor.ExtractionAbortedError` instance: the
recognized subclasses `AbortError` and `TokenLimitError` of that external
library, or some other unrecognized subtype of the base interruption type. -/
inductive DPESubtype where
  | abort
  | tokenLimit
  | other
deriving DecidableEq

/-- Data carried by a `doc_page_extractor.ExtractionAbortedError`: which
recognized subtype (if any) the instance matches, and the token counts the
error object exposes (`error.input_tokens`, `error.output_tokens`). -/
structure DPEErrorData where
  subtype : DPESubtype
  input_tokens : Nat
  output_tokens : Nat
deriving DecidableEq

/-- Python exceptions relevant to this core, from `pdf_craft/error.py`:
`PDFError`, `OCRError` (page index, step index, chained cause), the local
`TokenLimitError` and `AbortError` signals, the optional library's
`ExtractionAbortedError` hierarchy, and arbitrary other exceptions. -/
inductive PyExc where
  | pdfError (message : String) (page_index : Option Int)
  | ocrError (message : String) (page_index : Int) (step_index : Nat) (cause : Option PyExc)
  | tokenLimitError (input_tokens : Nat) (output_tokens : Nat)
  | abortError (input_tokens : Nat) (output_tokens : Nat)
  | dpeExtractionAborted (data : DPEErrorData)
  | generic (message : String)

/-- Python `str(err)` for the exceptions above, reduced to the carried message. -/
def excStr : PyExc → String
  | .pdfError m _ => m
  | .ocrError m _ _ _ => m
  | .tokenLimitError _ _ => ""
  | .abortError _ _ => ""
  | .dpeExtractionAborted _ => ""
  | .generic m => m

/-- Modelled from the spec: Token Metering (the `OCRTokensMetering` record of
the repository's `metering` module, which is not among the provided sources) is
an immutable record of non-negative input/output token counts. -/
structure OCRTokensMetering where
  input_tokens : Nat
  output_tokens : Nat
deriving DecidableEq

/-- Modelled from the spec: the closed set of interruption kinds of the missing
`metering` module. -/
inductive InterruptedKind where
  | TOKEN_LIMIT_EXCEEDED
  | ABORT
deriving DecidableEq

/-- The normalized interruption outcome from `pdf_craft/error.py`
(`InterruptedError`): a kind plus a metering snapshot. -/
structure InterruptedError where
  kind : InterruptedKind
  metering : OCRTokensMetering
deriving DecidableEq

/-- The classifier `to_interrupted_error` from `pdf_craft/error.py`. The lazy
`from doc_page_extractor import ...` is embedded as the flag `dpe_installed`:
when `false` the import raises `ImportError` and the function returns `none`. -/
def to_interrupted_error (dpe_installed : Bool) (error : PyExc) : Option InterruptedError :=
  match error with
  | .tokenLimitError it ot =>
    some { kind := .TOKEN_LIMIT_EXCEEDED, metering := { input_tokens := it, output_tokens := ot } }
  | .abortError it ot =>
    some { kind := .ABORT, metering := { input_tokens := it, output_tokens := ot } }
  | e =>
    if dpe_installed then
      match e with
      | .dpeExtractionAborted d =>
        match d.subtype with
        | .abort =>
          some { kind := .ABORT,
                 metering := { input_tokens := d.input_tokens, output_tokens := d.output_tokens } }
        | .tokenLimit =>
          some { kind := .TOKEN_LIMIT_EXCEEDED,
                 metering := { input_tokens := d.input_tokens, output_tokens := d.output_tokens } }
        | .other => none
      | _ => none
    else none

/-- Whether an exception is one of the two locally-defined interruption signals
of `pdf_craft/error.py` (`TokenLimitError` or `AbortError`). -/
def isLocalInterruptionSignal : PyExc → Bool
  | .tokenLimitError _ _ => true
  | .abortError _ _ => true
  | _ => false

/-- Whether an exception is an instance of the optional library's base
interruption type (`doc_page_extractor.ExtractionAbortedError`). -/
def isDPEInterruption : PyExc → Bool
  | .dpeExtractionAborted _ => true
  | _ => false

/-- Whether a code point is a lone surrogate (U+D800 through U+DFFF). -/
def isSurrogate (c : Nat) : Bool := decide (0xD800 ≤ c) && decide (c ≤ 0xDFFF)

/-- Modelled from the spec: `remove_surrogates` from the repository's `common`
module (not among the provided sources) strips surrogate code points, which are
not valid standalone text, from recognized text. -/
def remove_surrogates (s : PyStr) : PyStr := s.filter (fun c => !isSurrogate c)

/-- Code points Python's `str.strip()` treats as whitespace. -/
def pyIsSpace (c : Nat) : Bool :=
  c == 9 || c == 10 || c == 11 || c == 12 || c == 13 || c == 28 || c == 29 ||
  c == 30 || c == 31 || c == 32 || c == 133 || c == 160 || c == 0x1680 ||
  (decide (0x2000 ≤ c) && decide (c ≤ 0x200A)) || c == 0x2028 || c == 0x2029 ||
  c == 0x202F || c == 0x205F || c == 0x3000

/-- Python `str.strip()`: drop leading and trailing whitespace code points. -/
def pyStrip (s : PyStr) : PyStr := List.rdropWhile pyIsSpace (s.dropWhile pyIsSpace)

/-- String literals of the Python source, as code-point sequences. -/
def pyOfString (s : String) : PyStr := s.data.map Char.toNat

/-- The helper `_normalize_text` from `pdf_craft/pdf/api_extractor.py`:
`""` for `None` or empty input, else `remove_surrogates(text).strip()`. -/
def _normalize_text (text : Option PyStr) : PyStr :=
  match text with
  | none => []
  | some t => if t.isEmpty then [] else pyStrip (remove_surrogates t)

/-- Modelled from the spec: a PIL image, reduced to its pixel size and abstract
PNG byte content; only the size reaches the produced layout geometry. -/
structure Image where
  width : Nat
  height : Nat
  png : List Nat
deriving DecidableEq

/-- PIL `image.size`, the `(width, height)` pair. -/
def Image.size (image : Image) : Nat × Nat := (image.width, image.height)

/-- The helper `_image_to_base64_data_url` from `pdf_craft/pdf/api_extractor.py`.
PNG serialization and base64 are Python-stdlib externals; the bytes are rendered
abstractly, keeping the source's `data:image/png;base64,` shape. -/
def _image_to_base64_data_url (image : Image) : String :=
  "data:image/png;base64," ++ String.intercalate "." (image.png.map toString)

/-- Modelled from the spec: the opaque `AssetHub` handle of the missing `common`
module, passed through to backends and unused by the Remote API Backend. -/
structure AssetHub where
  id : Nat
deriving DecidableEq

/-- Modelled from the spec: the `DeepSeekOCRSize` selector of the missing
`types` module, unused by the Remote API Backend. -/
structure DeepSeekOCRSize where
  id : Nat
deriving DecidableEq

/-- Modelled from the spec: `PageLayout` of the missing `types` module — role
tag, bounding rectangle (left, top, right, bottom), normalized text,
reading-order index, optional content hash. -/
structure PageLayout where
  ref : String
  det : Nat × Nat × Nat × Nat
  text : PyStr
  order : Nat
  hash : Option String
deriving DecidableEq

/-- Modelled from the spec: `Page` of the missing `types` module — page index,
optionally retained raw image, body and footnote layouts, token counts. -/
structure Page where
  index : Int
  image : Option Image
  body_layouts : List PageLayout
  footnotes_layouts : List PageLayout
  input_tokens : Nat
  output_tokens : Nat
deriving DecidableEq

/-- Modelled from the spec: the cooperative abort probe (`AbortedCheck` of the
missing `metering` module). `aborted k` tells whether cancellation has been
requested when the probe is invoked for the k-th time during a call. -/
abbrev AbortedCheck := Nat → Bool

/-- Modelled from the spec: `check_aborted` of the missing `metering` module
raises the internal abort signal when the probe reports cancellation; the
signal is the local `AbortError`, whose token counts default to zero. -/
def check_aborted (aborted : AbortedCheck) (k : Nat) : Except PyExc Unit :=
  if aborted k then .error (.abortError 0 0) else .ok ()

/-- The immutable configuration of `APIPageExtractor.__init__`
(`pdf_craft/pdf/api_extractor.py`): key, base URL, model name. -/
structure APIPageExtractor where
  api_key : String
  base_url : String
  model : String
deriving DecidableEq

/-- The `openai.OpenAI` transport client, reduced to its constructor args. -/
structure OpenAIClient where
  api_key : String
  base_url : String
deriving DecidableEq

/-- The mutable part of an `APIPageExtractor` instance: the lazily-created
`self._client` field. -/
structure ExtractorState where
  client : Option OpenAIClient
deriving DecidableEq

/-- Python `str.rstrip("/")`: drop trailing slashes. -/
def rstripSlashes (s : String) : String :=
  String.mk (List.rdropWhile (fun c => c == '/') s.data)

/-- `APIPageExtractor.__init__`: store the key, the base URL with trailing
slashes removed and the model name; `self._client` starts as `None`. -/
def APIPageExtractor.init (api_key base_url model : String) :
    APIPageExtractor × ExtractorState :=
  ({ api_key := api_key, base_url := rstripSlashes base_url, model := model },
   { client := none })

/-- `APIPageExtractor._get_client`: construct the client on first use, reuse it
afterwards. Also reports whether this call constructed a client. -/
def APIPageExtractor._get_client (self : APIPageExtractor) (st : ExtractorState) :
    OpenAIClient × ExtractorState × Bool :=
  match st.client with
  | some c => (c, st, false)
  | none =>
    let c : OpenAIClient := { api_key := self.api_key, base_url := self.base_url }
    (c, { client := some c }, true)

/-- One part of the single user message sent to the chat-completions endpoint. -/
inductive MessagePart where
  | image_url (url : String) (detail : String)
  | text (content : String)
deriving DecidableEq

/-- One chat message of the request body. -/
structure ChatMessage where
  role : String
  content : List MessagePart
deriving DecidableEq

/-- The keyword arguments passed to `client.chat.completions.create`. -/
structure ChatRequest where
  model : String
  messages : List ChatMessage
  max_tokens : Option Nat
deriving DecidableEq

/-- The optional `usage` object of a chat-completions response; each sub-field
may be absent or `None`. -/
structure Usage where
  prompt_tokens : Option Nat
  completion_tokens : Option Nat
deriving DecidableEq

/-- The message of one response choice; `content` may be absent or `None`. -/
structure ResponseMessage where
  content : Option PyStr
deriving DecidableEq

/-- One choice of a chat-completions response. -/
structure Choice where
  message : ResponseMessage
deriving DecidableEq

/-- A chat-completions response: a possibly empty list of choices and an
optional usage object. -/
structure ChatResponse where
  choices : List Choice
  usage : Option Usage
deriving DecidableEq

/-- The behaviour of `client.chat.completions.create(**kwargs)`: given the
client and the request, either a response or a raised exception. -/
abbrev Transport := OpenAIClient → ChatRequest → Except PyExc ChatResponse

/-- Observable side effects of one extractor call: how many transport requests
were issued and how many clients were constructed. -/
structure RunTrace where
  transport_calls : Nat
  clients_constructed : Nat
deriving DecidableEq

/-- `APIPageExtractor.download_models`: a no-op for the API backend. -/
def APIPageExtractor.download_models (self : APIPageExtractor) (st : ExtractorState)
    (revision : Option String) : Except PyExc Unit × ExtractorState × RunTrace :=
  (.ok (), st, { transport_calls := 0, clients_constructed := 0 })

/-- `APIPageExtractor.load_models`: a no-op for the API backend. -/
def APIPageExtractor.load_models (self : APIPageExtractor) (st : ExtractorState) :
    Except PyExc Unit × ExtractorState × RunTrace :=
  (.ok (), st, { transport_calls := 0, clients_constructed := 0 })

/-- The request body built inside `image2page` (`pdf_craft/pdf/api_extractor.py`
lines 82-103): one user message holding the image as a base64 PNG data URL with
a "high" detail hint and the fixed Markdown-conversion instruction; the
`max_tokens` keyword is present only when the caller provided
`max_output_tokens`. -/
def buildChatRequest (self : APIPageExtractor) (image : Image)
    (max_output_tokens : Option Nat) : ChatRequest :=
  { model := self.model,
    messages := [{ role := "user",
                   content := [.image_url (_image_to_base64_data_url image) "high",
                               .text "<image>\nConvert the document to markdown."] }],
    max_tokens := max_output_tokens }

/-- `APIPageExtractor.image2page` from `pdf_craft/pdf/api_extractor.py`: probe
cancellation, build the data-URL request, lazily obtain the client, issue the
request (wrapping any transport failure into `OCRError` with step index 1 and
the original cause chained), probe cancellation again, then assemble the
degraded single-body-layout `Page`. The call returns the result (or raised
exception), the updated instance state and the side-effect trace. -/
def APIPageExtractor.image2page
    (self : APIPageExtractor) (st : ExtractorState) (transport : Transport)
    (image : Image) (page_index : Int) (asset_hub : AssetHub)
    (ocr_size : DeepSeekOCRSize) (includes_footnotes : Bool)
    (includes_raw_image : Bool) (plot_path : Option String)
    (max_tokens : Option Nat) (max_output_tokens : Option Nat)
    (device_number : Option Int) (aborted : AbortedCheck) :
    Except PyExc Page × ExtractorState × RunTrace :=
  match check_aborted aborted 0 with
  | .error e => (.error e, st, { transport_calls := 0, clients_constructed := 0 })
  | .ok _ =>
    let raw_image : Option Image := if includes_raw_image then some image else none
    let req := buildChatRequest self image max_output_tokens
    let gc := self._get_client st
    let client := gc.1
    let st1 := gc.2.1
    let tr : RunTrace :=
      { transport_calls := 1, clients_constructed := if gc.2.2 then 1 else 0 }
    match transport client req with
    | .error err =>
      (.error (.ocrError
          ("OCR API request failed for page " ++ toString page_index ++ ": " ++ excStr err)
          page_index 1 (some err)), st1, tr)
    | .ok response =>
      match check_aborted aborted 1 with
      | .error e => (.error e, st1, tr)
      | .ok _ =>
        let content : PyStr :=
          match response.choices with
          | [] => []
          | choice :: _ => pyStrip (choice.message.content.getD [])
        let input_tokens : Nat :=
          match response.usage with
          | none => 0
          | some u => u.prompt_tokens.getD 0
        let output_tokens : Nat :=
          match response.usage with
          | none => 0
          | some u => u.completion_tokens.getD 0
        let wh := image.size
        let full_det := (0, 0, wh.1, wh.2)
        let layout : PageLayout :=
          { ref := "text", det := full_det, text := _normalize_text (some content),
            order := 0, hash := none }
        (.ok { index := page_index, image := raw_image, body_layouts := [layout],
               footnotes_layouts := [], input_tokens := input_tokens,
               output_tokens := output_tokens }, st1, tr)

/-- A lifecycle hook invocation: `download_models` or `load_models`. -/
inductive LifecycleOp where
  | download (revision : Option String)
  | load
deriving DecidableEq

/-- Run a sequence of lifecycle hook invocations, threading the instance state
and collecting each call's result and the total number of transport calls. -/
def runLifecycle (self : APIPageExtractor) :
    List LifecycleOp → ExtractorState →
    List (Except PyExc Unit) × ExtractorState × Nat
  | [], st => ([], st, 0)
  | op :: ops, st =>
    let step :=
      match op with
      | .download rev => self.download_models st rev
      | .load => self.load_models st
    let rest := runLifecycle self ops step.2.1
    (step.1 :: rest.1, rest.2.1, step.2.2.transport_calls + rest.2.2)

/-- Spec-side reading (§4.2 step 3, §6): the first choice's raw message
content, the empty string when there is no choice or no content. -/
def firstChoiceContent (response : ChatResponse) : PyStr :=
  match response.choices with
  | [] => []
  | choice :: _ => choice.message.content.getD []

/-- Spec-side reading (§4.2 step 4, §6): usage accounting of a response,
defaulting each count to zero when the object or the sub-field is absent. -/
def specUsageTokens (response : ChatResponse) : Nat × Nat :=
  match response.usage with
  | none => (0, 0)
  | some u => (u.prompt_tokens.getD 0, u.completion_tokens.getD 0)

theorem pyIsSpace_lt {c : Nat} (h : pyIsSpace c = true) : c < 0xD800 := by
  simp only [pyIsSpace, Bool.or_eq_true, beq_iff_eq, Bool.and_eq_true,
    decide_eq_true_eq] at h
  omega

theorem pyIsSpace_not_surrogate {c : Nat} (h : pyIsSpace c = true) :
    (!isSurrogate c) = true := by
  have hc := pyIsSpace_lt h
  simp only [isSurrogate, Bool.not_eq_true', Bool.and_eq_false_iff,
    decide_eq_false_iff_not, not_le]
  omega

theorem remove_surrogates_reverse (l : PyStr) :
    remove_surrogates l.reverse = (remove_surrogates l).reverse := by
  simp [remove_surrogates, List.filter_reverse]

theorem dropWhile_filter_dropWhile (l : PyStr) :
    List.dropWhile pyIsSpace (remove_surrogates (List.dropWhile pyIsSpace l)) =
    List.dropWhile pyIsSpace (remove_surrogates l) := by
  induction l with
  | nil => rfl
  | cons c t ih =>
    cases hsp : pyIsSpace c with
    | false =>
      simp only [List.dropWhile_cons, hsp, Bool.false_eq_true, if_false]
    | true =>
      have hns := pyIsSpace_not_surrogate hsp
      simp only [List.dropWhile_cons, hsp, if_true, remove_surrogates,
        List.filter_cons, hns] at *
      exact ih

theorem rdropWhile_filter_rdropWhile (l : PyStr) :
    List.rdropWhile pyIsSpace (remove_surrogates (List.rdropWhile pyIsSpace l)) =
    List.rdropWhile pyIsSpace (remove_surrogates l) := by
  simp only [List.rdropWhile]
  rw [remove_surrogates_reverse, List.reverse_reverse,
    dropWhile_filter_dropWhile, remove_surrogates_reverse]

theorem rdropWhile_cons_eq (p : Nat → Bool) (c : Nat) (t : List Nat) :
    List.rdropWhile p (c :: t) =
      if List.rdropWhile p t = [] then (if p c then [] else [c])
      else c :: List.rdropWhile p t := by
  simp only [List.rdropWhile, List.reverse_cons, List.dropWhile_append]
  cases h : List.dropWhile p t.reverse with
  | nil =>
    cases hpc : p c <;>
      simp [h, List.dropWhile_cons, hpc]
  | cons a s =>
    simp [h]

theorem dropWhile_rdropWhile_comm (l : List Nat) :
    List.dropWhile pyIsSpace (List.rdropWhile pyIsSpace l) =
    List.rdropWhile pyIsSpace (List.dropWhile pyIsSpace l) := by
  induction l with
  | nil => rfl
  | cons c t ih =>
    rw [rdropWhile_cons_eq, List.dropWhile_cons]
    by_cases hrd : List.rdropWhile pyIsSpace t = []
    · have ht : List.dropWhile pyIsSpace t = [] := by
        rw [List.dropWhile_eq_nil_iff]
        rw [List.rdropWhile_eq_nil_iff] at hrd
        exact hrd
      cases hpc : pyIsSpace c with
      | true =>
        simp [hrd, hpc, ht, List.rdropWhile_nil]
      | false =>
        simp [hrd, hpc, rdropWhile_cons_eq, List.dropWhile_cons]
    · cases hpc : pyIsSpace c with
      | true =>
        simp only [hrd, if_false, hpc, if_true, List.dropWhile_cons]
        simp [hrd, ih]
      | false =>
        simp only [hrd, if_false, hpc, Bool.false_eq_true, if_false]
        rw [rdropWhile_cons_eq]
        simp [hrd, List.dropWhile_cons, hpc]

theorem pyStrip_remove_surrogates_pyStrip (l : PyStr) :
    pyStrip (remove_surrogates (pyStrip l)) = pyStrip (remove_surrogates l) := by
  unfold pyStrip
  rw [← dropWhile_rdropWhile_comm, rdropWhile_filter_rdropWhile,
    dropWhile_rdropWhile_comm, dropWhile_filter_dropWhile]

theorem _normalize_text_some (t : PyStr) :
    _normalize_text (some t) = pyStrip (remove_surrogates t) := by
  cases t with
  | nil => rfl
  | cons c s => rfl

/-- C2: every exception that is neither a local quota-exceeded nor abort signal
(nor, when the optional library is installed, an instance of its base
interruption type) classifies to `none`; a quota-exceeded signal carrying
counts (100, 0) classifies to a TOKEN_LIMIT_EXCEEDED outcome whose metering
carries exactly those counts. -/
theorem to_interrupted_error_generic_and_token_limit
    (dpe_installed : Bool) (e : PyExc)
    (h1 : isLocalInterruptionSignal e = false)
    (h2 : dpe_installed = true → isDPEInterruption e = false) :
    to_interrupted_error dpe_installed e = none ∧
    to_interrupted_error dpe_installed (.tokenLimitError 100 0) =
      some { kind := .TOKEN_LIMIT_EXCEEDED,
             metering := { input_tokens := 100, output_tokens := 0 } } := by
  refine ⟨?_, by cases dpe_installed <;> rfl⟩
  cases e <;>
    simp_all [to_interrupted_error, isLocalInterruptionSignal, isDPEInterruption]

/-- Witness for C2 at a generic exception with the library installed. -/
theorem to_interrupted_error_generic_and_token_limit_witness :
    to_interrupted_error true (.generic "boom") = none ∧
    to_interrupted_error true (.tokenLimitError 100 0) =
      some { kind := .TOKEN_LIMIT_EXCEEDED,
             metering := { input_tokens := 100, output_tokens := 0 } } :=
  to_interrupted_error_generic_and_token_limit true (.generic "boom") rfl
    (fun _ => rfl)

/-- C9: with the optional library absent the classifier returns `none` for any
non-local-signal exception, and with it installed an instance of the base
interruption type matching neither recognized subtype also returns `none`. -/
theorem to_interrupted_error_unmatched_subtype_none
    (e : PyExc) (h : isLocalInterruptionSignal e = false)
    (d : DPEErrorData) (hd : d.subtype = .other) :
    to_interrupted_error false e = none ∧
    to_interrupted_error true (.dpeExtractionAborted d) = none := by
  constructor
  · cases e <;> simp_all [to_interrupted_error, isLocalInterruptionSignal]
  · simp [to_interrupted_error, hd]

/-- Witness for C9 at a generic exception and an unrecognized subtype. -/
theorem to_interrupted_error_unmatched_subtype_none_witness :
    to_interrupted_error false (.generic "boom") = none ∧
    to_interrupted_error true
      (.dpeExtractionAborted { subtype := .other, input_tokens := 7, output_tokens := 3 }) =
      none :=
  to_interrupted_error_unmatched_subtype_none (.generic "boom") rfl
    { subtype := .other, input_tokens := 7, output_tokens := 3 } rfl

/-- C7: any interleaving of `download_models` and `load_models` calls succeeds,
issues no transport call and leaves the backend state unchanged. -/
theorem lifecycle_hooks_are_noops (self : APIPageExtractor)
    (ops : List LifecycleOp) (st : ExtractorState) :
    runLifecycle self ops st = (ops.map fun _ => .ok (), st, 0) := by
  induction ops generalizing st with
  | nil => rfl
  | cons op ops ih =>
    cases op <;>
      simp [runLifecycle, APIPageExtractor.download_models,
        APIPageExtractor.load_models, ih]

/-- C8: the transport client is constructed lazily on first use and reused
unchanged afterwards; once the client field is set, no operation of the
backend replaces it. -/
theorem client_lazily_constructed_and_never_replaced (self : APIPageExtractor) :
    (∀ st, st.client = none →
      self._get_client st =
        ({ api_key := self.api_key, base_url := self.base_url },
         { client := some { api_key := self.api_key, base_url := self.base_url } },
         true)) ∧
    (∀ st c, st.client = some c → self._get_client st = (c, st, false)) ∧
    (∀ st c transport image page_index asset_hub ocr_size includes_footnotes
        includes_raw_image plot_path max_tokens max_output_tokens device_number
        aborted, st.client = some c →
      ((self.image2page st transport image page_index asset_hub ocr_size
          includes_footnotes includes_raw_image plot_path max_tokens
          max_output_tokens device_number aborted).2.1).client = some c) ∧
    (∀ st revision, (self.download_models st revision).2.1 = st) ∧
    (∀ st, (self.load_models st).2.1 = st) := by
  refine ⟨?_, ?_, ?_, fun _ _ => rfl, fun _ => rfl⟩
  · intro st hst
    cases st with
    | mk client => cases hst; rfl
  · intro st c hst
    cases st with
    | mk client => cases hst; rfl
  · intro st c transport image page_index asset_hub ocr_size includes_footnotes
      includes_raw_image plot_path max_tokens max_output_tokens device_number
      aborted hst
    have hgc : self._get_client st = (c, st, false) := by
      cases st with
      | mk client => cases hst; rfl
    unfold APIPageExtractor.image2page
    cases hc0 : check_aborted aborted 0 with
    | error e => simpa using hst
    | ok u =>
      simp only [hgc]
      split
      · exact hst
      · split
        · exact hst
        · exact hst

/-- Witness for C8: lazy construction on an empty state and reuse through an
`image2page` call on a populated state. -/
theorem client_lazily_constructed_and_never_replaced_witness :
    (APIPageExtractor.mk "k" "https://api.siliconflow.cn/v1" "m")._get_client
        { client := none } =
      ({ api_key := "k", base_url := "https://api.siliconflow.cn/v1" },
       { client := some { api_key := "k", base_url := "https://api.siliconflow.cn/v1" } },
       true) ∧
    (((APIPageExtractor.mk "k" "https://api.siliconflow.cn/v1" "m").image2page
        { client := some { api_key := "k", base_url := "https://api.siliconflow.cn/v1" } }
        (fun _ _ => .ok { choices := [], usage := none })
        { width := 8, height := 6, png := [] } 0 { id := 0 } { id := 0 }
        false false none none none none (fun _ => false)).2.1).client =
      some { api_key := "k", base_url := "https://api.siliconflow.cn/v1" } := by
  have h := client_lazily_constructed_and_never_replaced
    (APIPageExtractor.mk "k" "https://api.siliconflow.cn/v1" "m")
  exact ⟨h.1 { client := none } rfl,
    h.2.2.1 { client := some { api_key := "k", base_url := "https://api.siliconflow.cn/v1" } }
      { api_key := "k", base_url := "https://api.siliconflow.cn/v1" }
      (fun _ _ => .ok { choices := [], usage := none })
      { width := 8, height := 6, png := [] } 0 { id := 0 } { id := 0 }
      false false none none none none (fun _ => false) rfl⟩

/-- C1: a successful `image2page` call returns a `Page` whose body layouts are
exactly one layout with bounding rectangle (0, 0, width, height) of the input
image, role tag "text", reading-order index 0 and no content hash, and whose
footnote layouts are empty. -/
theorem image2page_single_full_layout
    (self : APIPageExtractor) (st : ExtractorState) (transport : Transport)
    (image : Image) (page_index : Int) (asset_hub : AssetHub)
    (ocr_size : DeepSeekOCRSize) (includes_footnotes includes_raw_image : Bool)
    (plot_path : Option String) (max_tokens max_output_tokens : Option Nat)
    (device_number : Option Int) (aborted : AbortedCheck)
    (page : Page) (st2 : ExtractorState) (tr : RunTrace)
    (h : self.image2page st transport image page_index asset_hub ocr_size
        includes_footnotes includes_raw_image plot_path max_tokens
        max_output_tokens device_number aborted = (.ok page, st2, tr)) :
    (page.body_layouts.map fun l => (l.ref, l.det, l.order, l.hash)) =
      [("text", (0, 0, image.width, image.height), 0, (none : Option String))] ∧
    page.footnotes_layouts = [] := by
  unfold APIPageExtractor.image2page at h
  rcases hc0 : check_aborted aborted 0 with e0 | u0 <;> simp only [hc0] at h
  · simp at h
  rcases htr : transport (self._get_client st).1
      (buildChatRequest self image max_output_tokens) with err | response <;>
    simp only [htr] at h
  · simp at h
  rcases hc1 : check_aborted aborted 1 with e1 | u1 <;> simp only [hc1] at h
  · simp at h
  simp only [Prod.mk.injEq, Except.ok.injEq] at h
  obtain ⟨hpage, -, -⟩ := h
  subst hpage
  simp [Image.size]

/-- C3: any exception raised by the transport while issuing the request makes
`image2page` fail with an `OCRError` carrying the given page index, step index
1 and the original exception as chained cause. -/
theorem image2page_transport_failure_ocr_error
    (self : APIPageExtractor) (st : ExtractorState) (transport : Transport)
    (image : Image) (page_index : Int) (asset_hub : AssetHub)
    (ocr_size : DeepSeekOCRSize) (includes_footnotes includes_raw_image : Bool)
    (plot_path : Option String) (max_tokens max_output_tokens : Option Nat)
    (device_number : Option Int) (aborted : AbortedCheck) (err : PyExc)
    (h0 : aborted 0 = false)
    (htr : ∀ client req, transport client req = .error err) :
    ∃ msg, (self.image2page st transport image page_index asset_hub ocr_size
        includes_footnotes includes_raw_image plot_path max_tokens
        max_output_tokens device_number aborted).1 =
      .error (.ocrError msg page_index 1 (some err)) := by
  unfold APIPageExtractor.image2page
  have hc0 : check_aborted aborted 0 = .ok () := by simp [check_aborted, h0]
  simp only [hc0, htr]
  exact ⟨_, rfl⟩

/-- C4: if the abort probe raises at the checkpoint before the network call,
`image2page` issues no request, constructs no client, leaves the state
unchanged, propagates the abort signal, and that signal classifies to an ABORT
outcome with zero token counts. -/
theorem image2page_abort_before_request
    (self : APIPageExtractor) (st : ExtractorState) (transport : Transport)
    (image : Image) (page_index : Int) (asset_hub : AssetHub)
    (ocr_size : DeepSeekOCRSize) (includes_footnotes includes_raw_image : Bool)
    (plot_path : Option String) (max_tokens max_output_tokens : Option Nat)
    (device_number : Option Int) (aborted : AbortedCheck) (dpe_installed : Bool)
    (h0 : aborted 0 = true) :
    self.image2page st transport image page_index asset_hub ocr_size
        includes_footnotes includes_raw_image plot_path max_tokens
        max_output_tokens device_number aborted =
      (.error (.abortError 0 0), st,
       { transport_calls := 0, clients_constructed := 0 }) ∧
    to_interrupted_error dpe_installed (.abortError 0 0) =
      some { kind := .ABORT,
             metering := { input_tokens := 0, output_tokens := 0 } } := by
  constructor
  · unfold APIPageExtractor.image2page
    have hc0 : check_aborted aborted 0 = .error (.abortError 0 0) := by
      simp [check_aborted, h0]
    rw [hc0]
  · rfl

/-- C5: the text of the returned body layout is the response's first-choice
content with surrogate code points stripped and surrounding whitespace
trimmed; absent content or an empty choice list yields the empty string. -/
theorem image2page_layout_text_from_response
    (self : APIPageExtractor) (st : ExtractorState) (transport : Transport)
    (image : Image) (page_index : Int) (asset_hub : AssetHub)
    (ocr_size : DeepSeekOCRSize) (includes_footnotes includes_raw_image : Bool)
    (plot_path : Option String) (max_tokens max_output_tokens : Option Nat)
    (device_number : Option Int) (aborted : AbortedCheck)
    (response : ChatResponse)
    (h0 : aborted 0 = false) (h1 : aborted 1 = false)
    (htr : ∀ client req, transport client req = .ok response) :
    (∃ page, (self.image2page st transport image page_index asset_hub ocr_size
        includes_footnotes includes_raw_image plot_path max_tokens
        max_output_tokens device_number aborted).1 = .ok page ∧
      page.body_layouts.map PageLayout.text =
        [pyStrip (remove_surrogates (firstChoiceContent response))]) ∧
    pyStrip (remove_surrogates (pyOfString "  Hello\n")) = pyOfString "Hello" ∧
    pyStrip (remove_surrogates (pyOfString " \n\t ")) = ([] : PyStr) := by
  refine ⟨?_, rfl, rfl⟩
  unfold APIPageExtractor.image2page
  have hc0 : check_aborted aborted 0 = .ok () := by simp [check_aborted, h0]
  have hc1 : check_aborted aborted 1 = .ok () := by simp [check_aborted, h1]
  simp only [hc0, hc1, htr]
  refine ⟨_, rfl, ?_⟩
  simp only [List.map_cons, List.map_nil, List.cons.injEq, and_true]
  rcases response with ⟨choices, usage⟩
  cases choices with
  | nil => rfl
  | cons choice rest =>
    simp only [firstChoiceContent]
    rw [_normalize_text_some, pyStrip_remove_surrogates_pyStrip]

/-- C6: the returned `Page` carries input_tokens equal to the usage object's
prompt_tokens and output_tokens equal to its completion_tokens, each
defaulting to 0 when the object or sub-field is absent, without error. -/
theorem image2page_token_accounting
    (self : APIPageExtractor) (st : ExtractorState) (transport : Transport)
    (image : Image) (page_index : Int) (asset_hub : AssetHub)
    (ocr_size : DeepSeekOCRSize) (includes_footnotes includes_raw_image : Bool)
    (plot_path : Option String) (max_tokens max_output_tokens : Option Nat)
    (device_number : Option Int) (aborted : AbortedCheck)
    (response : ChatResponse)
    (h0 : aborted 0 = false) (h1 : aborted 1 = false)
    (htr : ∀ client req, transport client req = .ok response) :
    ∃ page, (self.image2page st transport image page_index asset_hub ocr_size
        includes_footnotes includes_raw_image plot_path max_tokens
        max_output_tokens device_number aborted).1 = .ok page ∧
      page.input_tokens = (specUsageTokens response).1 ∧
      page.output_tokens = (specUsageTokens response).2 := by
  unfold APIPageExtractor.image2page
  have hc0 : check_aborted aborted 0 = .ok () := by simp [check_aborted, h0]
  have hc1 : check_aborted aborted 1 = .ok () := by simp [check_aborted, h1]
  simp only [hc0, hc1, htr]
  refine ⟨_, rfl, ?_, ?_⟩ <;>
    rcases response with ⟨choices, usage⟩ <;> cases usage <;> rfl

/-- C10: if the request succeeds but the abort probe raises at the
post-response checkpoint, `image2page` propagates the abort signal itself (not
wrapped into an `OCRError`), no page is returned, and the signal classifies to
an ABORT outcome. -/
theorem image2page_abort_after_response
    (self : APIPageExtractor) (st : ExtractorState) (transport : Transport)
    (image : Image) (page_index : Int) (asset_hub : AssetHub)
    (ocr_size : DeepSeekOCRSize) (includes_footnotes includes_raw_image : Bool)
    (plot_path : Option String) (max_tokens max_output_tokens : Option Nat)
    (device_number : Option Int) (aborted : AbortedCheck)
    (response : ChatResponse) (dpe_installed : Bool)
    (h0 : aborted 0 = false) (h1 : aborted 1 = true)
    (htr : ∀ client req, transport client req = .ok response) :
    (self.image2page st transport image page_index asset_hub ocr_size
        includes_footnotes includes_raw_image plot_path max_tokens
        max_output_tokens device_number aborted).1 =
      .error (.abortError 0 0) ∧
    to_interrupted_error dpe_installed (.abortError 0 0) =
      some { kind := .ABORT,
             metering := { input_tokens := 0, output_tokens := 0 } } := by
  constructor
  · unfold APIPageExtractor.image2page
    have hc0 : check_aborted aborted 0 = .ok () := by simp [check_aborted, h0]
    have hc1 : check_aborted aborted 1 = .error (.abortError 0 0) := by
      simp [check_aborted, h1]
    simp only [hc0, hc1, htr]
  · rfl

/-- Fixture: a concrete backend configuration. -/
def exSelf : APIPageExtractor :=
  { api_key := "key", base_url := "https://api.siliconflow.cn/v1",
    model := "DeepSeek/DeepSeek-OCR" }

/-- Fixture: a concrete 640 by 480 input image. -/
def exImage : Image := { width := 640, height := 480, png := [1, 2, 3] }

/-- Fixture: an opaque asset hub handle. -/
def exHub : AssetHub := { id := 0 }

/-- Fixture: an OCR size selector. -/
def exSize : DeepSeekOCRSize := { id := 0 }

/-- Fixture: a response whose first choice carries "  Hello\n" and whose usage
reports 12 prompt and 5 completion tokens. -/
def exResponse : ChatResponse :=
  { choices := [{ message := { content := some (pyOfString "  Hello\n") } }],
    usage := some { prompt_tokens := some 12, completion_tokens := some 5 } }

/-- Fixture: a transport that always succeeds with `exResponse`. -/
def exTransportOk : Transport := fun _ _ => .ok exResponse

/-- Fixture: a transport that always raises a generic exception. -/
def exTransportFail : Transport := fun _ _ => .error (.generic "boom")

/-- Fixture: the fresh extractor state, no client constructed yet. -/
def exState : ExtractorState := { client := none }

/-- Fixture: the extractor state after the first client construction. -/
def exStateClient : ExtractorState :=
  { client := some { api_key := "key", base_url := "https://api.siliconflow.cn/v1" } }

/-- Fixture: the page produced for `exImage` and `exResponse` at index 3. -/
def exPage : Page :=
  { index := 3, image := none,
    body_layouts := [{ ref := "text", det := (0, 0, 640, 480),
                       text := pyOfString "Hello", order := 0, hash := none }],
    footnotes_layouts := [], input_tokens := 12, output_tokens := 5 }

/-- Witness for C1 at a concrete successful call. -/
theorem image2page_single_full_layout_witness :
    (exPage.body_layouts.map fun l => (l.ref, l.det, l.order, l.hash)) =
      [("text", (0, 0, exImage.width, exImage.height), 0, (none : Option String))] ∧
    exPage.footnotes_layouts = [] :=
  image2page_single_full_layout exSelf exState exTransportOk exImage 3 exHub exSize
    false false none none none none (fun _ => false) exPage exStateClient
    { transport_calls := 1, clients_constructed := 1 } rfl

/-- Witness for C3 at a transport that raises a generic exception. -/
theorem image2page_transport_failure_ocr_error_witness :
    ∃ msg, (exSelf.image2page exState exTransportFail exImage 7 exHub exSize
        false false none none none none (fun _ => false)).1 =
      .error (.ocrError msg 7 1 (some (.generic "boom"))) :=
  image2page_transport_failure_ocr_error exSelf exState exTransportFail exImage 7
    exHub exSize false false none none none none (fun _ => false) (.generic "boom")
    rfl (fun _ _ => rfl)

/-- Witness for C4 with a probe that reports cancellation immediately. -/
theorem image2page_abort_before_request_witness :
    exSelf.image2page exState exTransportOk exImage 2 exHub exSize false false
        none none none none (fun _ => true) =
      (.error (.abortError 0 0), exState,
       { transport_calls := 0, clients_constructed := 0 }) ∧
    to_interrupted_error true (.abortError 0 0) =
      some { kind := .ABORT,
             metering := { input_tokens := 0, output_tokens := 0 } } :=
  image2page_abort_before_request exSelf exState exTransportOk exImage 2 exHub
    exSize false false none none none none (fun _ => true) true rfl

/-- Witness for C5 at the "  Hello\n" response. -/
theorem image2page_layout_text_from_response_witness :
    (∃ page, (exSelf.image2page exState exTransportOk exImage 3 exHub exSize
        false false none none none none (fun _ => false)).1 = .ok page ∧
      page.body_layouts.map PageLayout.text =
        [pyStrip (remove_surrogates (firstChoiceContent exResponse))]) ∧
    pyStrip (remove_surrogates (pyOfString "  Hello\n")) = pyOfString "Hello" ∧
    pyStrip (remove_surrogates (pyOfString " \n\t ")) = ([] : PyStr) :=
  image2page_layout_text_from_response exSelf exState exTransportOk exImage 3
    exHub exSize false false none none none none (fun _ => false) exResponse
    rfl rfl (fun _ _ => rfl)

/-- Witness for C6 at the usage object (12, 5). -/
theorem image2page_token_accounting_witness :
    ∃ page, (exSelf.image2page exState exTransportOk exImage 5 exHub exSize
        false false none none none none (fun _ => false)).1 = .ok page ∧
      page.input_tokens = (specUsageTokens exResponse).1 ∧
      page.output_tokens = (specUsageTokens exResponse).2 :=
  image2page_token_accounting exSelf exState exTransportOk exImage 5 exHub exSize
    false false none none none none (fun _ => false) exResponse
    rfl rfl (fun _ _ => rfl)

/-- Witness for C10 with a probe that reports cancellation only at the second
checkpoint. -/
theorem image2page_abort_after_response_witness :
    (exSelf.image2page exState exTransportOk exImage 4 exHub exSize false false
        none none none none (fun k => k == 1)).1 = .error (.abortError 0 0) ∧
    to_interrupted_error false (.abortError 0 0) =
      some { kind := .ABORT,
             metering := { input_tokens := 0, output_tokens := 0 } } :=
  image2page_abort_after_response exSelf exState exTransportOk exImage 4 exHub
    exSize false false none none none none (fun k => k == 1) exResponse false
    rfl rfl (fun _ _ => rfl)
